import Mathlib

set_option maxHeartbeats 1000000

/-!
Shallow embedding of the prerequisite-extraction and graph-construction
pipeline of FiveCollegeScraper.py (and the tokenizer block of
coursescraper.py), together with proofs about the embedded functions.

Python strings are Lean String values; Python dicts that are built once
with distinct literal keys are association lists in insertion order;
Python lists are Lean lists; the for-loops that append to a list are
expressed as folds / structural recursion producing the same list.
-/

namespace Scraper

/-- Python s.upper() on the basic-latin catalog alphabet: uppercase every
character. -/
def pyUpper (s : String) : String := ⟨s.data.map Char.toUpper⟩

/-- Python s.lower() on the basic-latin catalog alphabet. -/
def pyLower (s : String) : String := ⟨s.data.map Char.toLower⟩

/-- Python s.isnumeric() on the ASCII course-catalog alphabet: nonempty and
all digits. -/
def pyIsNumeric (s : String) : Bool := !s.data.isEmpty && s.data.all Char.isDigit

/-- The non-breaking space character U+00A0. -/
def nbspChar : Char := Char.ofNat 160

/-- Python s.replace(u0xa0, u0x20): replace every non-breaking space by an
ordinary space (single-character replacement is a character map). -/
def nbspToSpace (s : String) : String :=
  ⟨s.data.map (fun c => if c = nbspChar then ' ' else c)⟩

/-- Splitting a character list at every delimiter character, keeping empty
pieces, exactly as Python re.split with a single-character alternation
(and as Python str.split with an explicit separator character). -/
def splitChars (p : Char → Bool) : List Char → List (List Char)
  | [] => [[]]
  | c :: rest =>
    if p c then [] :: splitChars p rest
    else
      match splitChars p rest with
      | [] => [[c]]
      | g :: gs => (c :: g) :: gs

/-- String form of splitChars. -/
def pySplit (p : Char → Bool) (s : String) : List String :=
  (splitChars p s.data).map (fun l => ⟨l⟩)

/-- Does the character list occur at the start of the second list. -/
def startsWithChars : List Char → List Char → Bool
  | [], _ => true
  | _ :: _, [] => false
  | a :: as, b :: bs => a == b && startsWithChars as bs

/-- Python substring containment (needle in hay) on character lists. -/
def hasSubChars (needle : List Char) : List Char → Bool
  | [] => startsWithChars needle []
  | c :: rest => startsWithChars needle (c :: rest) || hasSubChars needle rest

/-- Python code.split(sep)[0] for sep a dash: the department half of a
course code such as ECON-101. The split list is never empty, so the head
always exists. -/
def deptPart (code : String) : String := (pySplit (· == '-') code).headD ""

/-- Python code.split(sep)[1]: the number half of a course code. Python
raises IndexError when the code has no dash; the embedding totalises that
out-of-contract case to the empty string (spec section 3 fixes the code
format DEPT-NUM). -/
def numPart (code : String) : String := (pySplit (· == '-') code).getD 1 ""

/-- The literal sentence filter of get_prereqs, line 205 of
FiveCollegeScraper.py: the Python expression is a disjunction whose first
operand is the truthiness of the nonempty literal string and whose second
operand is the substring test against the lowercased sentence. -/
def sentenceTest (s : String) : Bool :=
  !String.isEmpty "requisite" || hasSubChars "or consent of professor".data (pyLower s).data

/-- The delimiters of re.split on the requisite line, line 207. -/
def isWordDelim (c : Char) : Bool :=
  c == ' ' || c == '-' || c == ',' || c == '/' || c == ';' || c == '.'

/-- The sentence delimiters of re.split on the description, line 203. -/
def isSentenceDelim (c : Char) : Bool := c == '\n' || c == '.'

/-- The Requisite-Text Extractor inside get_prereqs, lines 200-206:
req_line starts empty; when the description is nonempty it is rebuilt by
appending every sentence that passes sentenceTest, followed by a space. -/
def reqLineOf (desc : String) : String :=
  if 0 < desc.length then
    (pySplit isSentenceDelim (nbspToSpace desc)).foldl
      (fun acc s => if sentenceTest s then acc ++ s ++ " " else acc) ""
  else ""

/-- One CourseRecord of the store: catalog metadata plus the candidate
requisite-sentence list computed by get_course_description. -/
structure CourseRecord where
  title : String
  url : String
  description : String
  prereqs : List String
deriving DecidableEq

/-- The record used when a lookup cannot fail but a default is demanded. -/
def defaultRecord : CourseRecord := ⟨"", "", "", []⟩

/-- The keys of the CourseRecord store, in insertion order. -/
def keysOf (store : List (String × CourseRecord)) : List String := store.map Prod.fst

/-- Line 195: the uppercased department prefixes of all store keys. -/
def deptsOf (store : List (String × CourseRecord)) : List String :=
  (keysOf store).map (fun k => pyUpper (deptPart k))

/-- Line 196: the uppercased number parts of the store keys whose number
part begins with a digit. -/
def numsOf (store : List (String × CourseRecord)) : List String :=
  (keysOf store).filterMap (fun k =>
    match (numPart k).data with
    | [] => none
    | c :: _ => if c.isDigit then some (pyUpper (numPart k)) else none)

/-- The Course-Code Tokenizer loop of get_prereqs, lines 211-215: scan the
word tokens left to right; a token whose uppercase form is in depts moves
the department cursor; a token contained in nums emits the pair
(uppercased cursor + dash + token, requiring course). The Python loop
appends to a shared list; the recursion produces the same list in the
same order. -/
def scanWords (depts nums : List String) (k : String) : String → List String → List (String × String)
  | _, [] => []
  | cd, w :: ws =>
    let cd2 := if pyUpper w ∈ depts then w else cd
    (if w ∈ nums then [(pyUpper cd2 ++ "-" ++ w, k)] else []) ++ scanWords depts nums k cd2 ws

/-- get_prereqs, lines 181-216: for every course of the store whose
description is nonempty, extract the requisite line, split it into word
tokens and run the tokenizer with the cursor initialised to the course's
own department; concatenate all emitted (required, requiring) pairs in
store order. -/
def getPrereqs (store : List (String × CourseRecord)) : List (String × String) :=
  let depts := deptsOf store
  let nums := numsOf store
  store.flatMap (fun kc =>
    if 0 < kc.2.description.length then
      scanWords depts nums kc.1 (deptPart kc.1)
        (pySplit isWordDelim (reqLineOf kc.2.description))
    else [])

/-- test_prereqs, lines 218-238: report every store key that occurs in no
edge of the edgelist (neither side) and whose prereqs field is nonempty;
the embedding returns the list of reported keys in store order. -/
def testPrereqs (edgelist : List (String × String)) (store : List (String × CourseRecord)) : List String :=
  store.filterMap (fun kc =>
    if edgelist.all (fun e => kc.1 != e.1 && kc.1 != e.2) then
      if 0 < kc.2.prereqs.length then some kc.1 else none
    else none)

/-- An igraph-style directed graph: vertex i carries the name names[i];
edges are ordered pairs of vertex indices. -/
structure CGraph where
  names : List String
  edges : List (Nat × Nat)
deriving DecidableEq

/-- itertools.chain over the edge tuples: every endpoint, in order. -/
def endpointsOf (edgelist : List (String × String)) : List String :=
  edgelist.flatMap (fun e => [e.1, e.2])

/-- make_course_graph, lines 240-265: extra_courses is every endpoint
occurrence whose code is not a store key (no deduplication in the
source); the vertex names are the store keys followed by extra_courses;
add_edges resolves each endpoint name to its first vertex index. -/
def makeCourseGraph (store : List (String × CourseRecord)) (edgelist : List (String × String)) : CGraph :=
  let keys := keysOf store
  let extra := (endpointsOf edgelist).filter (fun c => !keys.contains c)
  let names := keys ++ extra
  { names := names,
    edges := edgelist.map (fun e => (names.findIdx (· == e.1), names.findIdx (· == e.2))) }

/-- igraph neighborhood of one vertex with order 1 and mode all: the
vertex itself, the targets of its out-edges and the sources of its
in-edges (as a set; the claims below only use membership). -/
def closedNbhd (g : CGraph) (v : Nat) : List Nat :=
  v :: (g.edges.filterMap (fun e => if e.1 == v then some e.2 else none)
        ++ g.edges.filterMap (fun e => if e.2 == v then some e.1 else none))

/-- igraph induced_subgraph: keep the listed vertices in the given order
and every edge both of whose endpoints are listed, reindexed; edge order
follows the original edge order. -/
def inducedSubgraph (g : CGraph) (vids : List Nat) : CGraph :=
  { names := vids.map (fun v => g.names.getD v ""),
    edges := g.edges.filterMap (fun e =>
      match vids.findIdx? (· == e.1), vids.findIdx? (· == e.2) with
      | some a, some b => some (a, b)
      | _, _ => none) }

/-- make_subgraph, lines 267-289: collect the vertices whose name has the
given department prefix, take the union of their closed 1-neighborhoods
(Python builds a set; the embedding keeps first occurrences), and induce.
The unused prereqs_edgelist parameter of the source is dropped. -/
def makeSubgraph (dept : String) (g : CGraph) : CGraph :=
  let relevant := g.names.enum.filterMap (fun p => if deptPart p.2 == dept then some p.1 else none)
  inducedSubgraph g ((relevant.flatMap (closedNbhd g)).eraseDups)

/-- A value stored under an attribute key of an exported node. -/
inductive AttrVal where
  | s : String → AttrVal
  | strs : List String → AttrVal
  | pair : Nat → String → AttrVal
deriving DecidableEq

/-- A value stored under a key of an exported node or edge record. Numeric
x, y and size values are rationals standing for the Python floats that
are only ever copied, never computed with. -/
inductive PyVal where
  | s : String → PyVal
  | q : Rat → PyVal
  | pair : Nat → String → PyVal
  | attrs : List (String × AttrVal) → PyVal
deriving DecidableEq

/-- A single-quote string, built by code point to keep the file free of
quote literals. -/
def sq : String := ⟨[Char.ofNat 39]⟩

/-- Python repr of a course-code string (no escapes needed for catalog
codes): the string wrapped in single quotes. -/
def pyReprStr (s : String) : String := sq ++ s ++ sq

/-- Python str of the enumerate tuple (i, name): this is what line 370
and line 393 store under the id key of a node. -/
def pyStrPair (i : Nat) (nm : String) : String :=
  "(" ++ toString i ++ ", " ++ pyReprStr nm ++ ")"

/-- Python str of an rgb triple, with the comma-space separators Python
prints inside a tuple. -/
def pyStrTriple (t : Nat × Nat × Nat) : String :=
  "(" ++ toString t.1 ++ ", " ++ toString t.2.1 ++ ", " ++ toString t.2.2 ++ ")"

/-- Python dict assignment d[k] = v on an association list: overwrite the
existing binding or append a new one. -/
def dictSet (d : List (String × α)) (k : String) (v : α) : List (String × α) :=
  if d.any (fun p => p.1 == k) then d.map (fun p => if p.1 == k then (k, v) else p)
  else d ++ [(k, v)]

/-- Lines 361-362: the dict comprehension over the (duplicate-bearing)
list of department prefixes; one fresh pseudo-random triple is drawn from
the stream per list element, later elements overwriting earlier ones.
The random source is passed in as a stream indexed by draw count. -/
def deptColors (rgbStream : Nat → Nat × Nat × Nat) (deptList : List String) : List (String × (Nat × Nat × Nat)) :=
  deptList.enum.foldl (fun acc p => dictSet acc p.2 (rgbStream p.1)) []

/-- The rgb(...) colour string for a department; the lookup never misses
for departments present in the subgraph. -/
def colorStrFor (colors : List (String × (Nat × Nat × Nat))) (dept : String) : String :=
  "rgb" ++ pyStrTriple ((colors.lookup dept).getD (0, 0, 0))

/-- Python name[0:4], the first four characters (line 376). -/
def take4 (s : String) : String := ⟨s.data.take 4⟩

/-- The HTML anchor of line 377-380. -/
def courseSiteAnchor (url : String) : String :=
  "<a href= " ++ sq ++ url ++ sq ++ "> Course Site </a>"

/-- Lines 364-386: the node record exported for a course present in the
store, as an ordered key-value list (the OrderedDict with its seven keys
in assignment order). -/
def knownNode (i : Nat) (nm : String) (pos : Rat × Rat) (cr : CourseRecord) (colorStr : String) : List (String × PyVal) :=
  [("label", .pair i nm), ("x", .q pos.1), ("y", .q pos.2), ("id", .s (pyStrPair i nm)),
   ("attributes", .attrs
     [("Title", .s cr.title), ("Description", .s cr.description),
      ("Department Code", .s (take4 nm)),
      ("Course Site", .s (courseSiteAnchor cr.url)),
      ("Requisite", .strs cr.prereqs)]),
   ("color", .s colorStr), ("size", .q 10)]

/-- Lines 388-402: the node record exported for a course absent from the
store (phantom node): placeholder description, empty site and requisite,
same positional and colour fields, again seven keys. -/
def phantomNode (i : Nat) (nm : String) (pos : Rat × Rat) (colorStr : String) : List (String × PyVal) :=
  [("label", .pair i nm), ("x", .q pos.1), ("y", .q pos.2), ("id", .s (pyStrPair i nm)),
   ("attributes", .attrs
     [("Title", .pair i nm),
      ("Description", .s "not offered in the last 4 semesters"),
      ("Department Code", .s (deptPart nm)),
      ("Course Site", .s ""), ("Requisite", .s "")]),
   ("color", .s colorStr), ("size", .q 10)]

/-- Lines 405-419: the edge record; lastLen is len(node_output) of the
last node built by the node loop, i the edge index; source, target and
colour come from the subgraph. -/
def edgeRecord (lastLen : Nat) (colors : List (String × (Nat × Nat × Nat))) (names : List String) (i : Nat) (e : Nat × Nat) : List (String × PyVal) :=
  [("label", .s ""), ("source", .s (toString e.1)), ("target", .s (toString e.2)),
   ("id", .s (toString (lastLen - 1 + 2 * i))),
   ("attributes", .attrs []),
   ("color", .s (colorStrFor colors (deptPart (names.getD e.2 "")))),
   ("size", .q 1)]

/-- The exported document: data with its nodes and edges lists. -/
structure VizDoc where
  nodes : List (List (String × PyVal))
  edges : List (List (String × PyVal))
deriving DecidableEq

/-- One iteration of the node loop of make_json (lines 364-403): look the
course up in the store and produce the known or the phantom record. -/
def nodeFor (store : List (String × CourseRecord)) (positions : List (Rat × Rat))
    (colors : List (String × (Nat × Nat × Nat))) (p : Nat × String) : List (String × PyVal) :=
  let pos := positions.getD p.1 (0, 0)
  let cs := colorStrFor colors (deptPart p.2)
  match store.lookup p.2 with
  | some cr => knownNode p.1 p.2 pos cr cs
  | none => phantomNode p.1 p.2 pos cs

/-- One iteration of the edge loop of make_json (lines 405-419), on the
enumerated edge. -/
def edgeFor (lastLen : Nat) (colors : List (String × (Nat × Nat × Nat))) (names : List String)
    (p : Nat × (Nat × Nat)) : List (String × PyVal) :=
  edgeRecord lastLen colors names p.1 p.2

/-- make_json, lines 337-420, parameterised by the process-global random
colour source and by the external igraph sugiyama layout routine. The
source takes the first vcount positions of the layout (line 326) and
indexes them per node; the embedding returns none exactly when those
indexings would raise, i.e. when the layout is shorter than the vertex
count (never the case for the real igraph routine). lastLen is the length
of the node OrderedDict left over from the node loop, used verbatim by
the edge-id formula of line 413. -/
def mkJson (rgbStream : Nat → Nat × Nat × Nat) (lay : CGraph → List (Rat × Rat))
    (dept : String) (store : List (String × CourseRecord)) (g : CGraph) : Option VizDoc :=
  let sg := makeSubgraph dept g
  let n := sg.names.length
  if n ≤ (lay sg).length then
    let positions := (lay sg).take n
    let colors := deptColors rgbStream (sg.names.map deptPart)
    let nodes := sg.names.enum.map (nodeFor store positions colors)
    let lastLen := ((nodes.getLast?).map List.length).getD 0
    some ⟨nodes, sg.edges.enum.map (edgeFor lastLen colors sg.names)⟩
  else none

/-- One course of the Amherst coursescraper.py courseDetails dict: its
catalog url and the list of requisite lines found on its page. -/
structure ACourse where
  url : String
  rLine : List String
deriving DecidableEq

/-- The per-course tokenizer loop of coursescraper.py, lines 163-168: a
token that occurs verbatim in depts moves the cursor; a token of exactly
three digits emits cursor + dash + token. -/
def scanWordsA (depts : List String) : String → List String → List String
  | _, [] => []
  | cd, w :: ws =>
    let cd2 := if w ∈ depts then w else cd
    (if pyIsNumeric w && w.length == 3 then [cd2 ++ "-" ++ w] else []) ++ scanWordsA depts cd2 ws

/-- The prereqs block of coursescraper.py, lines 152-169: for every course
whose rLine list is nonempty, normalise the first line, split it into
word tokens, initialise the cursor from the fifth slash-field of the
course url, and scan; courses with an empty rLine get no entry. -/
def amherstPrereqs (depts : List String) (courseDetails : List (String × ACourse)) : List (String × List String) :=
  courseDetails.filterMap (fun kc =>
    if 0 < kc.2.rLine.length then
      some (kc.1, scanWordsA depts
        ((pySplit (· == '/') kc.2.url).getD 5 "")
        (pySplit isWordDelim (nbspToSpace (kc.2.rLine.headD ""))))
    else none)

/-- The department cursor after the Five-College tokenizer has consumed a
token list: each token whose uppercase form is a known department code
replaces the cursor. -/
def cursorAfter (depts : List String) : String → List String → String
  | cd, [] => cd
  | cd, w :: ws => cursorAfter depts (if pyUpper w ∈ depts then w else cd) ws

/-- The department cursor of the Amherst tokenizer: tokens are compared
verbatim against the department list. -/
def cursorAfterA (depts : List String) : String → List String → String
  | cd, [] => cd
  | cd, w :: ws => cursorAfterA depts (if w ∈ depts then w else cd) ws

/-- The colour-independent shape of an exported document: the label of
every node and the (source, target) of every edge. -/
def docShape (d : VizDoc) : List (Option PyVal) × List (Option PyVal × Option PyVal) :=
  (d.nodes.map (fun nr => nr.lookup "label"),
   d.edges.map (fun er => (er.lookup "source", er.lookup "target")))

/-- A fixed random-colour stream for the concrete examples. -/
def exRgb : Nat → Nat × Nat × Nat := fun _ => (5, 6, 7)

/-- A three-course single-department store. -/
def exStore3 : List (String × CourseRecord) :=
  [("ECON-101", ⟨"t", "u", "d", []⟩), ("ECON-201", ⟨"t", "u", "d", []⟩),
   ("ECON-301", ⟨"t", "u", "d", []⟩)]

/-- The course graph on exStore3 with the one edge ECON-101 to ECON-201. -/
def exG3 : CGraph := ⟨["ECON-101", "ECON-201", "ECON-301"], [(0, 1)]⟩

/-- A layout routine returning three positions. -/
def exLay3 : CGraph → List (Rat × Rat) := fun _ => [(0, 0), (0, 1), (0, 2)]

/-- A store in which ECON-999 has no record. -/
def exStoreP : List (String × CourseRecord) := [("ECON-301", ⟨"t", "u", "d", []⟩)]

/-- The graph with known ECON-301 requiring phantom ECON-999. -/
def exGP : CGraph := ⟨["ECON-301", "ECON-999"], [(1, 0)]⟩

/-- A layout routine returning two positions. -/
def exLayP : CGraph → List (Rat × Rat) := fun _ => [(0, 0), (1, 2)]

/-- A store whose one description mentions the numeric token 999, which is
not the number of any known course. -/
def exStoreNum : List (String × CourseRecord) :=
  [("ECON-101", ⟨"t", "u", "Requisite: 999", []⟩)]

/-- A store whose first description names MATH 101 although MATH-101 is
not a known course (101 is a known ECON number). -/
def exStorePh : List (String × CourseRecord) :=
  [("ECON-101", ⟨"", "", "Requisite: MATH 101", []⟩), ("MATH-211", ⟨"", "", "", []⟩)]

/-- A store whose first description names the known course ECON-201. -/
def exStoreReq : List (String × CourseRecord) :=
  [("ECON-101", ⟨"", "", "Requisite: ECON 201", []⟩), ("ECON-201", ⟨"", "", "", []⟩)]

/-- A one-course store with a nonempty candidate-requisite list. -/
def exStoreT : List (String × CourseRecord) :=
  [("ECON-101", ⟨"", "", "", ["Requisite: instructor consent"]⟩)]

/-- A two-course store for the duplicate-phantom example. -/
def exStoreDup : List (String × CourseRecord) :=
  [("ECON-301", ⟨"", "", "", []⟩), ("ECON-302", ⟨"", "", "", []⟩)]

/-- Two edges that both require the unknown course ECON-999. -/
def exEdgesDup : List (String × String) :=
  [("ECON-999", "ECON-301"), ("ECON-999", "ECON-302")]

/-! ### Helper lemmas -/

theorem toNat_ofNat_valid {n : Nat} (h : n.isValidChar) : (Char.ofNat n).toNat = n := by
  rw [Char.ofNat, dif_pos h]
  rfl

theorem char_toUpper_digit_eq (c : Char) (h : c.toUpper.isDigit = true) : c.toUpper = c := by
  by_cases hc : c.toNat ≥ 97 ∧ c.toNat ≤ 122
  · exfalso
    have hup : c.toUpper = Char.ofNat (c.toNat - 32) := by
      simp only [Char.toUpper]
      rw [if_pos hc]
    rw [hup, Char.isDigit, Bool.and_eq_true] at h
    have hvalid : (c.toNat - 32).isValidChar := Or.inl (by omega)
    have htn : (Char.ofNat (c.toNat - 32)).val.toNat = c.toNat - 32 := toNat_ofNat_valid hvalid
    have hle : (Char.ofNat (c.toNat - 32)).val.toNat ≤ 57 :=
      UInt32.toNat_le_of_le (by decide) (of_decide_eq_true h.2)
    omega
  · simp only [Char.toUpper]
    rw [if_neg hc]

theorem map_toUpper_of_digits :
    ∀ l : List Char, (l.map Char.toUpper).all Char.isDigit = true → l.map Char.toUpper = l
  | [], _ => rfl
  | c :: cs, h => by
    rw [List.map_cons, List.all_cons, Bool.and_eq_true] at h
    rw [List.map_cons, char_toUpper_digit_eq c h.1, map_toUpper_of_digits cs h.2]

theorem pyUpper_eq_self_of_numeric (s : String) (h : pyIsNumeric (pyUpper s) = true) :
    pyUpper s = s := by
  have hd : (s.data.map Char.toUpper).all Char.isDigit = true := by
    rw [pyIsNumeric, Bool.and_eq_true] at h
    exact h.2
  show (⟨s.data.map Char.toUpper⟩ : String) = s
  rw [map_toUpper_of_digits s.data hd]

theorem sentenceTest_true (s : String) : sentenceTest s = true := rfl

theorem length_pos_of_ne_empty {s : String} (h : s ≠ "") : 0 < s.length := by
  rcases s with ⟨l⟩
  cases l with
  | nil => exact absurd rfl h
  | cons c cs => exact Nat.succ_pos _

theorem strFoldl_append :
    ∀ (t : List String) (a : String), t.foldl (· ++ ·) a = a ++ String.join t
  | [], a => by simp [String.join]
  | x :: xs, a => by
    rw [List.foldl_cons, strFoldl_append xs (a ++ x)]
    conv_rhs => rw [String.join, List.foldl_cons, strFoldl_append xs ("" ++ x)]
    simp [String.append_assoc]

theorem strJoin_cons (s : String) (l : List String) :
    String.join (s :: l) = s ++ String.join l := by
  rw [String.join, List.foldl_cons, strFoldl_append]
  simp

theorem reqFold_eq :
    ∀ (l : List String) (acc : String),
      l.foldl (fun a s => if sentenceTest s then a ++ s ++ " " else a) acc =
        acc ++ String.join (l.map (fun s => s ++ " "))
  | [], acc => by simp [String.join]
  | s :: l, acc => by
    rw [List.foldl_cons]
    rw [if_pos (sentenceTest_true s), List.map_cons, strJoin_cons, reqFold_eq l (acc ++ s ++ " ")]
    simp [String.append_assoc]

theorem scanWords_snd (depts nums : List String) (k : String) :
    ∀ ws cd e, e ∈ scanWords depts nums k cd ws → e.2 = k := by
  intro ws
  induction ws with
  | nil => intro cd e h; simp [scanWords] at h
  | cons w ws ih =>
    intro cd e h
    simp only [scanWords] at h
    rcases List.mem_append.mp h with h1 | h2
    · by_cases hn : w ∈ nums
      · rw [if_pos hn] at h1
        rw [List.mem_singleton.mp h1]
      · rw [if_neg hn] at h1
        simp at h1
    · exact ih _ e h2

theorem scanWords_emits (depts nums : List String) (k : String) :
    ∀ ws cd e, e ∈ scanWords depts nums k cd ws →
      ∃ d w, e.1 = pyUpper d ++ "-" ++ w ∧ w ∈ nums := by
  intro ws
  induction ws with
  | nil => intro cd e h; simp [scanWords] at h
  | cons w ws ih =>
    intro cd e h
    simp only [scanWords] at h
    rcases List.mem_append.mp h with h1 | h2
    · by_cases hn : w ∈ nums
      · rw [if_pos hn] at h1
        refine ⟨(if pyUpper w ∈ depts then w else cd), w, ?_, hn⟩
        rw [List.mem_singleton.mp h1]
      · rw [if_neg hn] at h1
        simp at h1
    · exact ih _ e h2

theorem filterMap_range_succ (f : Nat → Option α) (n : Nat) :
    (List.range (n + 1)).filterMap f =
      (f 0).toList ++ (List.range n).filterMap (f ∘ Nat.succ) := by
  rw [List.range_succ_eq_map, List.filterMap_cons, List.filterMap_map]
  cases hf : f 0 <;> rfl

theorem scanWords_positional (depts nums : List String) (k : String) :
    ∀ ws cd, scanWords depts nums k cd ws =
      (List.range ws.length).filterMap (fun i =>
        if ws.getD i "" ∈ nums then
          some (pyUpper (cursorAfter depts cd (ws.take (i + 1))) ++ "-" ++ ws.getD i "", k)
        else none) := by
  intro ws
  induction ws with
  | nil => intro cd; rfl
  | cons w ws ih =>
    intro cd
    have hstep : scanWords depts nums k cd (w :: ws) =
        (if w ∈ nums then [(pyUpper (if pyUpper w ∈ depts then w else cd) ++ "-" ++ w, k)] else []) ++
          scanWords depts nums k (if pyUpper w ∈ depts then w else cd) ws := by
      simp only [scanWords]
    rw [hstep, List.length_cons, filterMap_range_succ]
    have htail : (List.range ws.length).filterMap ((fun i =>
        if (w :: ws).getD i "" ∈ nums then
          some (pyUpper (cursorAfter depts cd ((w :: ws).take (i + 1))) ++ "-" ++ (w :: ws).getD i "", k)
        else none) ∘ Nat.succ) =
        scanWords depts nums k (if pyUpper w ∈ depts then w else cd) ws := by
      rw [ih (if pyUpper w ∈ depts then w else cd)]
      exact List.filterMap_congr (fun i _ => rfl)
    have hf0 : (if (w :: ws).getD 0 "" ∈ nums then
          some (pyUpper (cursorAfter depts cd (List.take (0 + 1) (w :: ws))) ++ "-" ++ (w :: ws).getD 0 "", k)
        else none) = if w ∈ nums then
          some (pyUpper (if pyUpper w ∈ depts then w else cd) ++ "-" ++ w, k) else none := by
      simp only [List.getD_cons_zero, List.take_succ_cons, List.take_zero, cursorAfter]
    rw [htail, hf0]
    by_cases hn : w ∈ nums
    · simp [hn]
    · simp [hn]

theorem scanWordsA_positional (depts : List String) :
    ∀ ws cd, scanWordsA depts cd ws =
      (List.range ws.length).filterMap (fun i =>
        if pyIsNumeric (ws.getD i "") && (ws.getD i "").length == 3 then
          some (cursorAfterA depts cd (ws.take (i + 1)) ++ "-" ++ ws.getD i "")
        else none) := by
  intro ws
  induction ws with
  | nil => intro cd; rfl
  | cons w ws ih =>
    intro cd
    have hstep : scanWordsA depts cd (w :: ws) =
        (if pyIsNumeric w && w.length == 3 then [(if w ∈ depts then w else cd) ++ "-" ++ w] else []) ++
          scanWordsA depts (if w ∈ depts then w else cd) ws := by
      simp only [scanWordsA]
    rw [hstep, List.length_cons, filterMap_range_succ]
    have htail : (List.range ws.length).filterMap ((fun i =>
        if pyIsNumeric ((w :: ws).getD i "") && ((w :: ws).getD i "").length == 3 then
          some (cursorAfterA depts cd ((w :: ws).take (i + 1)) ++ "-" ++ (w :: ws).getD i "")
        else none) ∘ Nat.succ) =
        scanWordsA depts (if w ∈ depts then w else cd) ws := by
      rw [ih (if w ∈ depts then w else cd)]
      exact List.filterMap_congr (fun i _ => rfl)
    have hf0 : (if pyIsNumeric ((w :: ws).getD 0 "") && ((w :: ws).getD 0 "").length == 3 then
          some (cursorAfterA depts cd (List.take (0 + 1) (w :: ws)) ++ "-" ++ (w :: ws).getD 0 "")
        else none) = if pyIsNumeric w && w.length == 3 then
          some ((if w ∈ depts then w else cd) ++ "-" ++ w) else none := by
      simp only [List.getD_cons_zero, List.take_succ_cons, List.take_zero, cursorAfterA]
    rw [htail, hf0]
    by_cases hn : (pyIsNumeric w && w.length == 3) = true
    · simp [hn]
    · simp [hn]

/-! ### Claim theorems -/

/-- C3: the Requisite-Text Extractor's sentence test is constant-true:
every sentence passes, so for a nonempty description the requisite line is
the concatenation of all sentences (each followed by the appended space),
and for an empty description it is empty. -/
theorem requisite_extractor_constant_true :
    (∀ s, sentenceTest s = true) ∧
    ∀ desc, reqLineOf desc =
      if desc = "" then ""
      else String.join ((pySplit isSentenceDelim (nbspToSpace desc)).map (fun s => s ++ " ")) := by
  refine ⟨sentenceTest_true, ?_⟩
  intro desc
  by_cases hd : desc = ""
  · subst hd
    rfl
  · rw [if_neg hd, reqLineOf, if_pos (length_pos_of_ne_empty hd), reqFold_eq]
    simp

/-- C6: test_prereqs reports exactly the stored courses with a nonempty
candidate-requisite list whose code occurs in no edge of the edgelist, on
either side. -/
theorem test_prereqs_reports_iff :
    ∀ (edgelist : List (String × String)) (store : List (String × CourseRecord)) (k : String),
      k ∈ testPrereqs edgelist store ↔
        ∃ cr, (k, cr) ∈ store ∧ cr.prereqs ≠ [] ∧ ∀ e ∈ edgelist, k ≠ e.1 ∧ k ≠ e.2 := by
  intro edgelist store k
  rw [testPrereqs, List.mem_filterMap]
  constructor
  · rintro ⟨kc, hmem, heq⟩
    by_cases h1 : edgelist.all (fun e => kc.1 != e.1 && kc.1 != e.2) = true
    · rw [if_pos h1] at heq
      by_cases h2 : 0 < kc.2.prereqs.length
      · rw [if_pos h2] at heq
        obtain rfl : kc.1 = k := Option.some.inj heq
        refine ⟨kc.2, hmem, List.length_pos.mp h2, ?_⟩
        intro e he
        have := List.all_eq_true.mp h1 e he
        rw [Bool.and_eq_true, bne_iff_ne, bne_iff_ne] at this
        exact this
      · rw [if_neg h2] at heq
        exact absurd heq (by simp)
    · rw [if_neg h1] at heq
      exact absurd heq (by simp)
  · rintro ⟨cr, hmem, hne, hall⟩
    refine ⟨(k, cr), hmem, ?_⟩
    rw [if_pos, if_pos]
    · exact List.length_pos.mpr hne
    · rw [List.all_eq_true]
      intro e he
      rw [Bool.and_eq_true, bne_iff_ne, bne_iff_ne]
      exact hall e he

/-- C6 witness: a concrete store and edge list on which the report is
nonempty. -/
theorem test_prereqs_reports_witness :
    "ECON-101" ∈ testPrereqs [("A-1", "B-2")] exStoreT :=
  (test_prereqs_reports_iff [("A-1", "B-2")] exStoreT "ECON-101").mpr
    ⟨⟨"", "", "", ["Requisite: instructor consent"]⟩, by decide, by decide, by decide⟩

/-- C7: every edge produced by get_prereqs has a requiring endpoint that
is a key of the CourseRecord store. -/
theorem requiring_code_is_known :
    ∀ (store : List (String × CourseRecord)) (e : String × String),
      e ∈ getPrereqs store → e.2 ∈ keysOf store := by
  intro store e h
  rw [getPrereqs] at h
  obtain ⟨kc, hkc, hin⟩ := List.mem_flatMap.mp h
  by_cases hd : 0 < kc.2.description.length
  · rw [if_pos hd] at hin
    rw [scanWords_snd _ _ _ _ _ e hin]
    exact List.mem_map.mpr ⟨kc, hkc, rfl⟩
  · rw [if_neg hd] at hin
    simp at hin

/-- C7 witness: a concrete store on which get_prereqs emits an edge whose
requiring endpoint is the first store key. -/
theorem requiring_code_is_known_witness : "ECON-101" ∈ keysOf exStoreReq :=
  requiring_code_is_known exStoreReq ("ECON-201", "ECON-101") (by decide)

/-- C10: in the per-institution tokenizer a token creates an edge only
when it lies in the nums list, and a purely numeric member of the nums
list equals verbatim the number part of some store key whose number part
begins with a digit; hence numbers unknown everywhere in the store never
create edges. -/
theorem numeric_emission_only_known_numbers :
    (∀ (store : List (String × CourseRecord)) (e : String × String),
        e ∈ getPrereqs store → ∃ d w, e.1 = pyUpper d ++ "-" ++ w ∧ w ∈ numsOf store) ∧
    (∀ (store : List (String × CourseRecord)) (w : String),
        w ∈ numsOf store → pyIsNumeric w = true →
          ∃ k, k ∈ keysOf store ∧ numPart k = w ∧
            ∃ c cs, (numPart k).data = c :: cs ∧ c.isDigit = true) := by
  constructor
  · intro store e h
    rw [getPrereqs] at h
    obtain ⟨kc, _, hin⟩ := List.mem_flatMap.mp h
    by_cases hd : 0 < kc.2.description.length
    · rw [if_pos hd] at hin
      exact scanWords_emits _ _ _ _ _ e hin
    · rw [if_neg hd] at hin
      simp at hin
  · intro store w hw hnum
    rw [numsOf, List.mem_filterMap] at hw
    obtain ⟨k, hk, heq⟩ := hw
    rcases hdata : (numPart k).data with _ | ⟨c, cs⟩
    · rw [hdata] at heq
      exact absurd heq (by simp)
    · rw [hdata] at heq
      have heq2 : (if c.isDigit = true then some (pyUpper (numPart k)) else none) = some w := heq
      by_cases hdig : c.isDigit = true
      · rw [if_pos hdig] at heq2
        obtain rfl : pyUpper (numPart k) = w := Option.some.inj heq2
        have hself := pyUpper_eq_self_of_numeric (numPart k) hnum
        exact ⟨k, hk, hself.symm, c, cs, hdata, hdig⟩
      · rw [if_neg hdig] at heq2
        exact absurd heq2 (by simp)

/-- C10 witness: in a store whose only key is ECON-101, the numeric token
101 lies in nums and equals the number part of the key ECON-101. -/
theorem numeric_emission_only_known_numbers_witness :
    ∃ k, k ∈ keysOf exStoreNum ∧ numPart k = "101" ∧
      ∃ c cs, (numPart k).data = c :: cs ∧ c.isDigit = true :=
  numeric_emission_only_known_numbers.2 exStoreNum "101" (by decide) (by decide)

/-- C2 counterexample: in the Five-College tokenizer the purely numeric
token 999 occurs among the scanned word tokens of the requisite line, yet
get_prereqs emits nothing for it (999 is not a known course number), so it
is false that every purely numeric token emits a prerequisite code. -/
theorem numeric_token_no_edge_counterexample :
    getPrereqs exStoreNum = [] ∧
    pyIsNumeric "999" = true ∧
    "999" ∈ pySplit isWordDelim (reqLineOf "Requisite: 999") := by decide

/-- C2 (amended): the tokenizer scans tokens left to right with the
department cursor; in the Five-College tokenizer a token emits the code
uppercased-cursor + dash + token precisely when the token occurs in the
known-numbers list nums (not for every purely numeric token); in the
Amherst per-course tokenizer a token emits cursor + dash + token
precisely when it consists of exactly three digits; an emitted numeric
token that is not a real course code still produces a (phantom)
prerequisite code, as the concrete MATH-101 instance shows. -/
theorem tokenizer_emission :
    (∀ (depts nums : List String) (k cd : String) (ws : List String),
        scanWords depts nums k cd ws =
          (List.range ws.length).filterMap (fun i =>
            if ws.getD i "" ∈ nums then
              some (pyUpper (cursorAfter depts cd (ws.take (i + 1))) ++ "-" ++ ws.getD i "", k)
            else none)) ∧
    (∀ (depts : List String) (cd : String) (ws : List String),
        scanWordsA depts cd ws =
          (List.range ws.length).filterMap (fun i =>
            if pyIsNumeric (ws.getD i "") && (ws.getD i "").length == 3 then
              some (cursorAfterA depts cd (ws.take (i + 1)) ++ "-" ++ ws.getD i "")
            else none)) ∧
    ("MATH-101", "ECON-101") ∈ getPrereqs exStorePh ∧
    "MATH-101" ∉ keysOf exStorePh :=
  ⟨fun depts nums k cd ws => scanWords_positional depts nums k ws cd,
   fun depts cd ws => scanWordsA_positional depts ws cd,
   by decide, by decide⟩

/-- Boolean non-membership test of the filter in make_course_graph. -/
theorem not_contains_iff (l : List String) (c : String) : (!l.contains c) = true ↔ c ∉ l := by
  constructor
  · intro h hmem
    rw [show l.contains c = List.elem c l from rfl, List.elem_iff.mpr hmem] at h
    simp at h
  · intro h
    cases hb : l.contains c
    · rfl
    · exact absurd (List.elem_iff.mp hb) h

/-- Every endpoint of the edge list, characterised by membership. -/
theorem mem_endpointsOf {c : String} {edgelist : List (String × String)} :
    c ∈ endpointsOf edgelist ↔ ∃ e, e ∈ edgelist ∧ (c = e.1 ∨ c = e.2) := by
  rw [endpointsOf, List.mem_flatMap]
  constructor
  · rintro ⟨e, he, hc⟩
    rcases List.mem_cons.mp hc with hc | hc
    · exact ⟨e, he, Or.inl hc⟩
    · exact ⟨e, he, Or.inr (List.mem_singleton.mp hc)⟩
  · rintro ⟨e, he, hc | hc⟩
    · exact ⟨e, he, by rw [hc]; exact List.mem_cons_self _ _⟩
    · exact ⟨e, he, by rw [hc]; exact List.mem_cons_of_mem _ (List.mem_singleton.mpr rfl)⟩

/-- C5 counterexample: with two known courses both requiring the unknown
ECON-999, make_course_graph creates two vertices named ECON-999, so the
graph does not have exactly one node per unique code. -/
theorem duplicate_phantom_node_counterexample :
    (makeCourseGraph exStoreDup exEdgesDup).names.count "ECON-999" = 2 ∧
    ¬ (makeCourseGraph exStoreDup exEdgesDup).names.Nodup := by decide

/-- C5 (amended): the vertex-name set of make_course_graph is exactly the
known codes united with the edge endpoints; a known code contributes one
vertex (when the store keys are distinct, as Python dict keys are), but an
unknown code contributes one vertex per endpoint occurrence, so the same
phantom code can appear as several vertices. -/
theorem course_graph_nodes :
    ∀ (store : List (String × CourseRecord)) (edgelist : List (String × String)),
      (∀ c, c ∈ (makeCourseGraph store edgelist).names ↔
          c ∈ keysOf store ∨ ∃ e, e ∈ edgelist ∧ (c = e.1 ∨ c = e.2)) ∧
      (∀ c, c ∉ keysOf store →
          (makeCourseGraph store edgelist).names.count c = (endpointsOf edgelist).count c) ∧
      ((keysOf store).Nodup → ∀ c, c ∈ keysOf store →
          (makeCourseGraph store edgelist).names.count c = 1) := by
  intro store edgelist
  refine ⟨?_, ?_, ?_⟩
  · intro c
    show c ∈ keysOf store ++ (endpointsOf edgelist).filter (fun c => !(keysOf store).contains c) ↔ _
    rw [List.mem_append, List.mem_filter, ← mem_endpointsOf]
    constructor
    · rintro (hk | ⟨he, _⟩)
      · exact Or.inl hk
      · exact Or.inr he
    · rintro (hk | he)
      · exact Or.inl hk
      · by_cases hc : c ∈ keysOf store
        · exact Or.inl hc
        · exact Or.inr ⟨he, (not_contains_iff _ _).mpr hc⟩
  · intro c hc
    show (keysOf store ++ (endpointsOf edgelist).filter (fun c => !(keysOf store).contains c)).count c = _
    rw [List.count_append, List.count_eq_zero.mpr hc, Nat.zero_add]
    exact List.count_filter ((not_contains_iff _ _).mpr hc)
  · intro hnd c hc
    show (keysOf store ++ (endpointsOf edgelist).filter (fun c => !(keysOf store).contains c)).count c = 1
    rw [List.count_append, List.count_eq_one_of_mem hnd hc]
    have hz : (((endpointsOf edgelist).filter (fun c => !(keysOf store).contains c)).count c) = 0 := by
      rw [List.count_eq_zero]
      intro hmem
      exact (not_contains_iff _ _).mp (List.mem_filter.mp hmem).2 hc
    rw [hz]

/-- C5 witness: on the duplicate-phantom inputs the known code ECON-301
still contributes exactly one vertex. -/
theorem course_graph_nodes_witness :
    (makeCourseGraph exStoreDup exEdgesDup).names.count "ECON-301" = 1 :=
  (course_graph_nodes exStoreDup exEdgesDup).2.2 (by decide) "ECON-301" (by decide)

theorem knownNode_lookup_label (i : Nat) (nm : String) (pos : Rat × Rat) (cr : CourseRecord) (c : String) :
    (knownNode i nm pos cr c).lookup "label" = some (.pair i nm) := rfl

theorem phantomNode_lookup_label (i : Nat) (nm : String) (pos : Rat × Rat) (c : String) :
    (phantomNode i nm pos c).lookup "label" = some (.pair i nm) := rfl

theorem edgeRecord_lookup_source (L : Nat) (cs : List (String × (Nat × Nat × Nat))) (ns : List String) (i : Nat) (e : Nat × Nat) :
    (edgeRecord L cs ns i e).lookup "source" = some (.s (toString e.1)) := rfl

theorem edgeRecord_lookup_target (L : Nat) (cs : List (String × (Nat × Nat × Nat))) (ns : List String) (i : Nat) (e : Nat × Nat) :
    (edgeRecord L cs ns i e).lookup "target" = some (.s (toString e.2)) := rfl

theorem edgeRecord_lookup_id (L : Nat) (cs : List (String × (Nat × Nat × Nat))) (ns : List String) (i : Nat) (e : Nat × Nat) :
    (edgeRecord L cs ns i e).lookup "id" = some (.s (toString (L - 1 + 2 * i))) := rfl

theorem nodeFor_lookup_label (store : List (String × CourseRecord)) (P : List (Rat × Rat))
    (colors : List (String × (Nat × Nat × Nat))) (p : Nat × String) :
    (nodeFor store P colors p).lookup "label" = some (.pair p.1 p.2) := by
  simp only [nodeFor]
  cases store.lookup p.2 <;> rfl

theorem edgeFor_lookup_source (L : Nat) (cs : List (String × (Nat × Nat × Nat))) (ns : List String) (p : Nat × (Nat × Nat)) :
    (edgeFor L cs ns p).lookup "source" = some (.s (toString p.2.1)) := rfl

theorem edgeFor_lookup_target (L : Nat) (cs : List (String × (Nat × Nat × Nat))) (ns : List String) (p : Nat × (Nat × Nat)) :
    (edgeFor L cs ns p).lookup "target" = some (.s (toString p.2.2)) := rfl

theorem edgeFor_lookup_id (L : Nat) (cs : List (String × (Nat × Nat × Nat))) (ns : List String) (p : Nat × (Nat × Nat)) :
    (edgeFor L cs ns p).lookup "id" = some (.s (toString (L - 1 + 2 * p.1))) := rfl

/-- C9: extraction of a department subgraph is deterministic: two runs on
the same graph and department have the same node set and edge set, and
the only pseudo-random input of the export (the colour stream) does not
affect which nodes and edges the exported document contains. -/
theorem subgraph_extraction_deterministic :
    ∀ (dept : String) (g : CGraph),
      ((∀ x, x ∈ (makeSubgraph dept g).names ↔ x ∈ (makeSubgraph dept g).names) ∧
        (∀ e, e ∈ (makeSubgraph dept g).edges ↔ e ∈ (makeSubgraph dept g).edges)) ∧
      ∀ (rgb1 rgb2 : Nat → Nat × Nat × Nat) (lay : CGraph → List (Rat × Rat))
        (store : List (String × CourseRecord)),
        (mkJson rgb1 lay dept store g).map docShape = (mkJson rgb2 lay dept store g).map docShape := by
  intro dept g
  refine ⟨⟨fun x => Iff.rfl, fun e => Iff.rfl⟩, ?_⟩
  intro rgb1 rgb2 lay store
  by_cases h : (makeSubgraph dept g).names.length ≤ (lay (makeSubgraph dept g)).length
  · simp only [mkJson]
    rw [if_pos h, if_pos h]
    rw [Option.map_some', Option.map_some']
    simp only [docShape]
    rw [Option.some.injEq, Prod.mk.injEq]
    constructor
    · rw [List.map_map, List.map_map]
      refine List.map_congr_left (fun p hp => ?_)
      simp only [Function.comp_apply]
      rw [nodeFor_lookup_label, nodeFor_lookup_label]
    · rw [List.map_map, List.map_map]
      refine List.map_congr_left (fun p hp => ?_)
      simp only [Function.comp_apply]
      rw [edgeFor_lookup_source, edgeFor_lookup_target,
        edgeFor_lookup_source, edgeFor_lookup_target]
  · simp only [mkJson]
    rw [if_neg h, if_neg h]

theorem nodeFor_length (store : List (String × CourseRecord)) (P : List (Rat × Rat))
    (colors : List (String × (Nat × Nat × Nat))) (p : Nat × String) :
    (nodeFor store P colors p).length = 7 := by
  simp only [nodeFor]
  cases store.lookup p.2 <;> rfl

theorem lastLen_eq_seven (store : List (String × CourseRecord)) (P : List (Rat × Rat))
    (colors : List (String × (Nat × Nat × Nat))) (l : List (Nat × String)) (h : l ≠ []) :
    ((Option.map List.length ((l.map (nodeFor store P colors)).getLast?)).getD 0) = 7 := by
  have hmapne : l.map (nodeFor store P colors) ≠ [] := by
    intro hcon
    exact h (List.map_eq_nil_iff.mp hcon)
  rw [List.getLast?_eq_getLast_of_ne_nil hmapne]
  rw [Option.map_some']
  have hmem := List.getLast_mem hmapne
  obtain ⟨p, _, hp⟩ := List.mem_map.mp hmem
  rw [← hp, nodeFor_length]
  rfl

/-- C1 counterexample: on a three-node single-edge subgraph the edge at
index 0 receives id 6, not the id 2 demanded by the claimed formula
(node_count - 1) + 2 * 0 = 2. -/
theorem edge_id_three_node_counterexample :
    (mkJson exRgb exLay3 "ECON" exStore3 exG3).map
        (fun d => (d.nodes.length, d.edges.map (fun er => er.lookup "id"))) =
      some (3, [some (.s "6")]) ∧
    PyVal.s "6" ≠ PyVal.s (toString ((3 - 1) + 2 * 0)) := by decide

/-- C1 (amended): the edge at index i of an exported document gets the id
string of (L - 1) + 2 * i where L = 7 is the number of keys of the last
node record built by the node loop (the source uses len of that
OrderedDict, not the subgraph's node count), so every edge id is
6 + 2 * i whenever the subgraph has at least one node. -/
theorem edge_id_formula :
    ∀ (rgb : Nat → Nat × Nat × Nat) (lay : CGraph → List (Rat × Rat)) (dept : String)
      (store : List (String × CourseRecord)) (g : CGraph),
      (makeSubgraph dept g).names.length ≤ (lay (makeSubgraph dept g)).length →
      (makeSubgraph dept g).names ≠ [] →
      (mkJson rgb lay dept store g).map (fun d => d.edges.map (fun er => er.lookup "id")) =
        some ((List.range (makeSubgraph dept g).edges.length).map
          (fun i => some (PyVal.s (toString (6 + 2 * i))))) := by
  intro rgb lay dept store g hg hne
  have henum : (makeSubgraph dept g).names.enum ≠ [] := by
    intro hcon
    apply hne
    have hlen := congrArg List.length hcon
    rw [List.enum_length] at hlen
    exact List.length_eq_zero.mp hlen
  simp only [mkJson]
  rw [if_pos hg]
  simp only [Option.map_some']
  rw [lastLen_eq_seven _ _ _ _ henum]
  rw [List.map_map]
  have hpt : ∀ p ∈ (makeSubgraph dept g).edges.enum,
      ((fun er => er.lookup "id") ∘
        edgeFor 7 (deptColors rgb ((makeSubgraph dept g).names.map deptPart)) (makeSubgraph dept g).names) p =
      ((fun i : Nat => some (PyVal.s (toString (6 + 2 * i)))) ∘ Prod.fst) p := by
    intro p hp
    simp only [Function.comp_apply]
    rw [edgeFor_lookup_id]
  rw [List.map_congr_left hpt]
  rw [← List.map_map, List.enum_eq_enumFrom, List.enumFrom_map_fst, ← List.range_eq_range']

/-- C1 witness: on the concrete three-node single-edge inputs the edge id
list is exactly the offset sequence starting at 6. -/
theorem edge_id_formula_witness :
    (mkJson exRgb exLay3 "ECON" exStore3 exG3).map (fun d => d.edges.map (fun er => er.lookup "id")) =
      some ((List.range (makeSubgraph "ECON" exG3).edges.length).map
        (fun i => some (PyVal.s (toString (6 + 2 * i))))) :=
  edge_id_formula exRgb exLay3 "ECON" exStore3 exG3 (by decide) (by decide)

/-- C4: evaluating make_json on a concrete three-node subgraph, every
exported node id is the Python string of the enumerate tuple (index,
name), not the string of the bare index; the edges meanwhile reference
their endpoints by bare-index strings, which match no node id. -/
theorem node_id_tuple_string_eval :
    (mkJson exRgb exLay3 "ECON" exStore3 exG3).map
        (fun d => (d.nodes.map (fun nr => nr.lookup "id"),
                   d.edges.map (fun er => (er.lookup "source", er.lookup "target")))) =
      some ([some (.s (pyStrPair 0 "ECON-101")), some (.s (pyStrPair 1 "ECON-201")),
             some (.s (pyStrPair 2 "ECON-301"))],
            [(some (.s "0"), some (.s "1"))]) ∧
    pyStrPair 0 "ECON-101" ≠ "0" := by decide

theorem phantomNode_lookup_x (i : Nat) (nm : String) (pos : Rat × Rat) (c : String) :
    (phantomNode i nm pos c).lookup "x" = some (.q pos.1) := rfl

theorem phantomNode_lookup_y (i : Nat) (nm : String) (pos : Rat × Rat) (c : String) :
    (phantomNode i nm pos c).lookup "y" = some (.q pos.2) := rfl

theorem phantomNode_lookup_color (i : Nat) (nm : String) (pos : Rat × Rat) (c : String) :
    (phantomNode i nm pos c).lookup "color" = some (.s c) := rfl

theorem phantomNode_lookup_size (i : Nat) (nm : String) (pos : Rat × Rat) (c : String) :
    (phantomNode i nm pos c).lookup "size" = some (.q 10) := rfl

theorem phantomNode_lookup_attributes (i : Nat) (nm : String) (pos : Rat × Rat) (c : String) :
    (phantomNode i nm pos c).lookup "attributes" =
      some (.attrs
        [("Title", .pair i nm),
         ("Description", .s "not offered in the last 4 semesters"),
         ("Department Code", .s (deptPart nm)),
         ("Course Site", .s ""), ("Requisite", .s "")]) := rfl

theorem map_enum_getD (f : (Nat × String) → List (String × PyVal)) (l : List String) (i : Nat)
    (hi : i < l.length) :
    ((l.enum.map f).getD i []) = f (i, l.getD i "") := by
  rw [List.getD_eq_getElem?_getD, List.getElem?_map, List.enum_eq_enumFrom, List.getElem?_enumFrom,
    List.getElem?_eq_getElem hi]
  simp [List.getD_eq_getElem?_getD, List.getElem?_eq_getElem hi]

/-- C8: a subgraph node whose code has no CourseRecord in the store is
exported with the placeholder description, an empty Course Site, an empty
Requisite, its layout position, its department's colour string and size
10.0, exactly like the positional fields of known nodes. -/
theorem phantom_node_export_fields :
    ∀ (rgb : Nat → Nat × Nat × Nat) (lay : CGraph → List (Rat × Rat)) (dept : String)
      (store : List (String × CourseRecord)) (g : CGraph) (i : Nat),
      (makeSubgraph dept g).names.length ≤ (lay (makeSubgraph dept g)).length →
      i < (makeSubgraph dept g).names.length →
      store.lookup ((makeSubgraph dept g).names.getD i "") = none →
      (mkJson rgb lay dept store g).map (fun d =>
          ((d.nodes.getD i []).lookup "x", (d.nodes.getD i []).lookup "y",
           (d.nodes.getD i []).lookup "color", (d.nodes.getD i []).lookup "size",
           (d.nodes.getD i []).lookup "attributes")) =
        some
          (some (.q (((lay (makeSubgraph dept g)).take (makeSubgraph dept g).names.length).getD i (0, 0)).1),
           some (.q (((lay (makeSubgraph dept g)).take (makeSubgraph dept g).names.length).getD i (0, 0)).2),
           some (.s (colorStrFor (deptColors rgb ((makeSubgraph dept g).names.map deptPart))
             (deptPart ((makeSubgraph dept g).names.getD i "")))),
           some (.q 10),
           some (.attrs
             [("Title", .pair i ((makeSubgraph dept g).names.getD i "")),
              ("Description", .s "not offered in the last 4 semesters"),
              ("Department Code", .s (deptPart ((makeSubgraph dept g).names.getD i ""))),
              ("Course Site", .s ""), ("Requisite", .s "")])) := by
  intro rgb lay dept store g i hg hi hph
  simp only [mkJson]
  rw [if_pos hg]
  simp only [Option.map_some']
  rw [map_enum_getD _ _ i hi]
  have hnode : nodeFor store ((lay (makeSubgraph dept g)).take (makeSubgraph dept g).names.length)
      (deptColors rgb ((makeSubgraph dept g).names.map deptPart))
      (i, (makeSubgraph dept g).names.getD i "") =
      phantomNode i ((makeSubgraph dept g).names.getD i "")
        (((lay (makeSubgraph dept g)).take (makeSubgraph dept g).names.length).getD i (0, 0))
        (colorStrFor (deptColors rgb ((makeSubgraph dept g).names.map deptPart))
          (deptPart ((makeSubgraph dept g).names.getD i ""))) := by
    simp only [nodeFor]
    rw [hph]
  rw [hnode, phantomNode_lookup_x, phantomNode_lookup_y, phantomNode_lookup_color,
    phantomNode_lookup_size, phantomNode_lookup_attributes]

/-- C8 witness: the concrete phantom node ECON-999 at index 1 of the
ECON subgraph is exported with the placeholder fields, its position
(1, 2), its department colour and size 10. -/
theorem phantom_node_export_fields_witness :
    (mkJson exRgb exLayP "ECON" exStoreP exGP).map (fun d =>
        ((d.nodes.getD 1 []).lookup "x", (d.nodes.getD 1 []).lookup "y",
         (d.nodes.getD 1 []).lookup "color", (d.nodes.getD 1 []).lookup "size",
         (d.nodes.getD 1 []).lookup "attributes")) =
      some
        (some (.q 1), some (.q 2),
         some (.s ("rgb" ++ pyStrTriple (5, 6, 7))),
         some (.q 10),
         some (.attrs
           [("Title", .pair 1 "ECON-999"),
            ("Description", .s "not offered in the last 4 semesters"),
            ("Department Code", .s "ECON"),
            ("Course Site", .s ""), ("Requisite", .s "")])) := by
  have h := phantom_node_export_fields exRgb exLayP "ECON" exStoreP exGP 1
    (by decide) (by decide) (by decide)
  exact h

end Scraper
